import Mathlib

/-
Verification development for cura/Machines/MaterialManager.py.

The MaterialManager keeps four derived lookup maps (fallback-by-type,
group-by-root-id, root-id-by-diameter-variant, groups-by-GUID), a favorites
set persisted as a semicolon-joined preference string, and a 300 ms
single-shot debounce timer for "materials updated" notifications.  The
definitions below are a shallow embedding of that file: Python dicts become
association lists, optional results become Option, code paths that raise
become explicit error constructors, and the external collaborators
(container tree, management model, preference store) are modelled by the
fields and parameters this file actually reads.
-/

/-- Python dict.get: first association for a key, none when absent. -/
def assocGet {α β : Type} [DecidableEq α] (m : List (α × β)) (k : α) : Option β :=
  match m with
  | [] => none
  | (k2, v) :: rest => if k2 = k then some v else assocGet rest k

/-- Modelled from the spec: a MaterialGroup (cura.Machines.MaterialGroup is
not under src) is a named collection of material records with a flag marking
whether it is read-only.  Only the fields MaterialManager.py reads appear. -/
structure MaterialGroup where
  name : String
  is_read_only : Bool
deriving DecidableEq

/-- Modelled from the spec: a MaterialNode (cura.Machines.MaterialNode is not
under src) is a leaf reference into the container tree pointing at one
concrete material container. -/
structure MaterialNode where
  id : String
deriving DecidableEq

/-- The fields of a material InstanceContainer that
getFallBackMaterialIdsByMaterial reads: its id, its GUID metadata entry and
its material-type metadata entry. -/
structure MaterialContainer where
  id : String
  guid : String
  material_type : String
deriving DecidableEq

/-- The state of a MaterialManager instance: the four lookup maps, the
favorites set (as a duplicate-free list), the persisted preference value for
cura/favorite_materials, a count of saveSettings calls, a count of
materialsUpdated emissions, and the debounce-timer deadline (absolute time at
which the armed single-shot timer fires, none when disarmed).  A
fallback-materials entry carries some id when the stored metadata dict is
truthy and exposes that id, none when the stored dict is falsy. -/
structure MMState where
  fallback_materials_map : List (String × Option String)
  material_group_map : List (String × MaterialGroup)
  diameter_material_map : List (String × String)
  guid_material_groups_map : List (String × List MaterialGroup)
  favorites : List String
  persisted : String
  saves : Nat
  signals : Nat
  deadline : Option Nat
deriving DecidableEq

/-- Python str.split with a one-character separator: splitting the empty
string yields a list holding one empty string. -/
def pySplit (sep : Char) (s : String) : List String :=
  (s.data.foldr
    (fun c acc =>
      match acc with
      | [] => [[c]]
      | h :: t => if c = sep then [] :: h :: t else (c :: h) :: t)
    [[]]).map (fun l => String.mk l)

/-- Embedding of MaterialManager.__init__ (the part the claims exercise):
favorites are the set of parts of the stored preference value split on the
semicolon delimiter, one materialsUpdated is emitted, the maps start empty
and the timer is disarmed. -/
def initManager (pref_value : String) : MMState :=
  { fallback_materials_map := []
    material_group_map := []
    diameter_material_map := []
    guid_material_groups_map := []
    favorites := (pySplit ';' pref_value).dedup
    persisted := pref_value
    saves := 0
    signals := 1
    deadline := none }

/-- Embedding of getFavorites: returns the favorites set. -/
def getFavorites (s : MMState) : List String :=
  s.favorites

/-- Embedding of addFavorite: insert the id into the set, emit
materialsUpdated, persist the semicolon-join of the set and save settings. -/
def addFavorite (s : MMState) (root_material_id : String) : MMState :=
  let favorites :=
    if root_material_id ∈ s.favorites then s.favorites
    else s.favorites ++ [root_material_id]
  { s with
    favorites := favorites
    signals := s.signals + 1
    persisted := String.intercalate ";" favorites
    saves := s.saves + 1 }

/-- Embedding of removeFavorite: removing an absent id hits the KeyError
handler, which logs a warning and returns before the emit, the persist and
the save; removing a present id removes it, emits materialsUpdated, persists
the join and saves settings. -/
def removeFavorite (s : MMState) (root_material_id : String) : MMState :=
  if root_material_id ∈ s.favorites then
    let favorites := s.favorites.filter (fun x => x != root_material_id)
    { s with
      favorites := favorites
      signals := s.signals + 1
      persisted := String.intercalate ";" favorites
      saves := s.saves + 1 }
  else s

/-- The calls MaterialManager dispatches on the external material-management
model for renaming and removal.  A renameCall with name none records that the
rename entry point was invoked with the new-name argument missing. -/
inductive ManagementModelCall
  | renameCall (material_node : MaterialNode) (name : Option String)
  | removeCall (material_node : MaterialNode)
deriving DecidableEq

/-- Embedding of setMaterialName (line 275): dispatches the rename operation
of the management model with the node and the new name. -/
def setMaterialName (material_node : MaterialNode) (name : String) : ManagementModelCall :=
  ManagementModelCall.renameCall material_node (some name)

/-- Embedding of removeMaterial (line 289): the body dispatches
setMaterialName on the management model, passing only the node. -/
def removeMaterial (material_node : MaterialNode) : ManagementModelCall :=
  ManagementModelCall.renameCall material_node none

/-- Embedding of duplicateMaterialByRootId: delegate to the management
model (passed as a function together with the new-base-id argument) and map
a none result to the sentinel string. -/
def duplicateMaterialByRootId
    (model_duplicateMaterialByBaseFile : String → Option String → Option String)
    (root_material_id : String) (new_base_id : Option String) : String :=
  match model_duplicateMaterialByBaseFile root_material_id new_base_id with
  | none => "ERROR"
  | some result => result

/-- Embedding of duplicateMaterial: delegate to the management model and map
a none result to the sentinel string. -/
def duplicateMaterial
    (model_duplicateMaterial : MaterialNode → Option String → Option String)
    (material_node : MaterialNode) (new_base_id : Option String) : String :=
  match model_duplicateMaterial material_node new_base_id with
  | none => "ERROR"
  | some result => result

/-- Python exceptions the embedded code paths can raise. -/
inductive PyError
  | keyError (key : String)
  | keyErrorVariant (key : Option String)
  | typeError
deriving DecidableEq

/-- Warnings the embedded code paths log. -/
inductive LogMsg
  | machineNotFound (machine_definition_id : String)
  | variantNotFound (nozzle_name : Option String) (machine_definition_id : String)
  | materialNotFound (root_material_id : String) (machine_definition_id : String)
      (nozzle_name : Option String)
deriving DecidableEq

/-- Embedding of getMaterialGroup: plain map lookup. -/
def getMaterialGroup (s : MMState) (root_material_id : String) : Option MaterialGroup :=
  assocGet s.material_group_map root_material_id

/-- Embedding of getRootMaterialIDWithoutDiameter: map lookup defaulting to
the empty string. -/
def getRootMaterialIDWithoutDiameter (s : MMState) (root_material_id : String) : String :=
  (assocGet s.diameter_material_map root_material_id).getD ""

/-- Embedding of getMaterialGroupListByGUID: plain map lookup (dict.get on
the defaultdict, which does not create a default entry). -/
def getMaterialGroupListByGUID (s : MMState) (guid : String) : Option (List MaterialGroup) :=
  assocGet s.guid_material_groups_map guid

/-- Embedding of getFallbackMaterialIdByMaterialType: none (with a logged
warning) for an unknown type; for a known type whose stored metadata is
truthy, the stored id resolved through the diameter-stripping map; none for
a falsy stored entry. -/
def getFallbackMaterialIdByMaterialType (s : MMState) (material_type : String) : Option String :=
  match assocGet s.fallback_materials_map material_type with
  | none => none
  | some fallback_material =>
    match fallback_material with
    | some fallback_id => some (getRootMaterialIDWithoutDiameter s fallback_id)
    | none => none

/-- The accumulation loop of getFallBackMaterialIdsByMaterial: a read-only
group name (when distinct from the material id) is inserted at position 0 of
the running result, an editable one is appended at the end. -/
def fallbackFold (material_id : String) (acc : List String) :
    List MaterialGroup → List String
  | [] => acc
  | g :: rest =>
    fallbackFold material_id
      (if g.name != material_id then
        if g.is_read_only then g.name :: acc else acc ++ [g.name]
      else acc) rest

/-- Embedding of getFallBackMaterialIdsByMaterial: looks up the GUID group
list; a missing entry yields none, over which the for-loop raises a
TypeError; otherwise runs the accumulation loop and appends the
fallback-by-type id when one exists. -/
def getFallBackMaterialIdsByMaterial (s : MMState) (material : MaterialContainer) :
    Except PyError (List String) :=
  match getMaterialGroupListByGUID s material.guid with
  | none => Except.error PyError.typeError
  | some material_groups =>
    let results := fallbackFold material.id [] material_groups
    match getFallbackMaterialIdByMaterialType s material.material_type with
    | some fallback => Except.ok (results ++ [fallback])
    | none => Except.ok results

/-- Names of the read-only groups of a list, skipping the material id
itself, in list order. -/
def roNames (material_id : String) (groups : List MaterialGroup) : List String :=
  (groups.filter (fun g => g.name != material_id && g.is_read_only)).map MaterialGroup.name

/-- Names of the editable groups of a list, skipping the material id
itself, in list order. -/
def edNames (material_id : String) (groups : List MaterialGroup) : List String :=
  (groups.filter (fun g => g.name != material_id && !g.is_read_only)).map MaterialGroup.name

/-- The candidate list claim C2 describes, written from the claim text:
read-only group names first, then editable ones, each bucket keeping
registration order, with the fallback-by-type id appended when one
exists. -/
def claimedFallBackIds (s : MMState) (material : MaterialContainer) : Option (List String) :=
  match getMaterialGroupListByGUID s material.guid with
  | none => none
  | some groups =>
    some (roNames material.id groups ++ edNames material.id groups
      ++ (getFallbackMaterialIdByMaterialType s material.material_type).toList)

/-- Modelled from the spec: a variant node of the external container tree
(cura.Machines.ContainerTree is not under src) exposes a materials mapping
keyed by root material id and a preferredMaterial operation taking an
approximate diameter; the preference scoring itself is out of scope and
stays an abstract function. -/
structure VariantNode where
  materials : List (String × MaterialNode)
  preferredMaterial : Int → MaterialNode

/-- Modelled from the spec: a machine node of the container tree exposes a
variants mapping keyed by (optional) nozzle name. -/
structure MachineNode where
  variants : List (Option String × VariantNode)

/-- Modelled from the spec: the container tree exposes a machines mapping
keyed by machine definition id. -/
structure ContainerTree where
  machines : List (String × MachineNode)

/-- Embedding of getAvailableMaterials: direct indexing
machines[definition_id].variants[nozzle_name].materials, so a missing key at
either level raises a KeyError that propagates to the caller. -/
def getAvailableMaterials (tree : ContainerTree) (definition_id : String)
    (nozzle_name : Option String) : Except PyError (List (String × MaterialNode)) :=
  match assocGet tree.machines definition_id with
  | none => Except.error (PyError.keyError definition_id)
  | some machine_node =>
    match assocGet machine_node.variants nozzle_name with
    | none => Except.error (PyError.keyErrorVariant nozzle_name)
    | some variant_node => Except.ok variant_node.materials

/-- Embedding of getMaterialNode: three guarded map lookups
(machine, then variant, then material); each miss logs a warning and
returns none.  The buildplate name and diameter parameters are accepted and
unused, as in the source. -/
def getMaterialNode (tree : ContainerTree) (machine_definition_id : String)
    (nozzle_name : Option String) (_buildplate_name : Option String) (_diameter : ℚ)
    (root_material_id : String) : Option MaterialNode × List LogMsg :=
  match assocGet tree.machines machine_definition_id with
  | none => (none, [LogMsg.machineNotFound machine_definition_id])
  | some machine_node =>
    match assocGet machine_node.variants nozzle_name with
    | none => (none, [LogMsg.variantNotFound nozzle_name machine_definition_id])
    | some variant_node =>
      match assocGet variant_node.materials root_material_id with
      | none =>
        (none, [LogMsg.materialNotFound root_material_id machine_definition_id nozzle_name])
      | some material_node => (some material_node, [])

/-- Modelled from the spec: the framework boolean-parsing utility applied to
an optional metadata entry; a missing entry takes the False default. -/
def parseBoolEntry (value : Option String) : Bool :=
  match value with
  | none => false
  | some v => v == "True" || v == "true" || v == "Yes" || v == "yes"

/-- Modelled from the spec: the extruder stack data getDefaultMaterial
reads — the compatible material diameter at a position. -/
structure ExtruderData where
  compatible_material_diameter : ℚ

/-- Modelled from the spec: the extruder definition container data
getDefaultMaterial reads — the material_diameter property value. -/
structure ExtruderDefinition where
  material_diameter : ℚ

/-- The global stack data getDefaultMaterial reads: the machine definition
id, the has_materials metadata entry and the extruders mapping keyed by
position string. -/
structure GlobalStackData where
  definition_id : String
  has_materials_entry : Option String
  extruders : List (String × ExtruderData)

/-- Python round(): round half to even. -/
def pyRound (q : ℚ) : Int :=
  let f := ⌊q⌋
  if q - f < 1 / 2 then f
  else if 1 / 2 < q - f then f + 1
  else if f % 2 = 0 then f else f + 1

/-- The outcomes of the embedded getDefaultMaterial.  materialId records
that the first KEY of a materials mapping (a root-material-id string) was
returned where the signature promises a MaterialNode; attributeError records
attribute access on the first KEY of the variants mapping (a string or
none), which is what next(iter(mapping)) yields. -/
inductive DefaultMaterialResult
  | node (material : MaterialNode)
  | materialId (key : String)
  | keyError (key : String)
  | stopIteration
  | attributeError

/-- Embedding of getDefaultMaterial.  Direct machine indexing (KeyError on a
miss); when the nozzle name is a variants key, that variant node is used;
otherwise next(iter(variants)) yields the first variants KEY, not a node.
When has_materials parses false, next(iter(materials)) yields the first
materials KEY.  Otherwise the diameter comes from the extruder definition if
given, else from the extruders mapping at the position (KeyError on a miss),
is rounded, and preferredMaterial is asked; on the key-fallback path every
attribute access fails. -/
def getDefaultMaterial (tree : ContainerTree) (global_stack : GlobalStackData)
    (position : String) (nozzle_name : Option String)
    (extruder_definition : Option ExtruderDefinition) : DefaultMaterialResult :=
  match assocGet tree.machines global_stack.definition_id with
  | none => DefaultMaterialResult.keyError global_stack.definition_id
  | some machine_node =>
    match assocGet machine_node.variants nozzle_name with
    | some nozzle_node =>
      if parseBoolEntry global_stack.has_materials_entry = false then
        match nozzle_node.materials with
        | [] => DefaultMaterialResult.stopIteration
        | (first_key, _) :: _ => DefaultMaterialResult.materialId first_key
      else
        match extruder_definition with
        | some extruder_def =>
          DefaultMaterialResult.node
            (nozzle_node.preferredMaterial (pyRound extruder_def.material_diameter))
        | none =>
          match assocGet global_stack.extruders position with
          | none => DefaultMaterialResult.keyError position
          | some extruder =>
            DefaultMaterialResult.node
              (nozzle_node.preferredMaterial (pyRound extruder.compatible_material_diameter))
    | none =>
      match machine_node.variants with
      | [] => DefaultMaterialResult.stopIteration
      | _ :: _ =>
        if parseBoolEntry global_stack.has_materials_entry = false then
          DefaultMaterialResult.attributeError
        else
          match extruder_definition with
          | some _ => DefaultMaterialResult.attributeError
          | none =>
            match assocGet global_stack.extruders position with
            | none => DefaultMaterialResult.keyError position
            | some _ => DefaultMaterialResult.attributeError

/-- Claim C1: removeMaterial is specified to delegate to the management
model removal operation, but the embedded body dispatches the rename entry
point (setMaterialName) with only the node, and on no input does it dispatch
the removal operation.  This exhibits the defect the spec flags. -/
theorem C1_removeMaterial_dispatches_rename :
    removeMaterial (MaterialNode.mk "m") = ManagementModelCall.renameCall (MaterialNode.mk "m") none
    ∧ ∀ n : MaterialNode, removeMaterial n ≠ ManagementModelCall.removeCall n := by
  refine ⟨rfl, ?_⟩
  intro n h
  exact ManagementModelCall.noConfusion h

/-- Claim C7: both duplication entry points return the delegated model
result when it is not none, and the sentinel string exactly on the none
branch — the value returned is the model result with none defaulted to the
sentinel, for every delegate model and every input. -/
theorem C7_duplicate_sentinel
    (model_dupByBaseFile : String → Option String → Option String)
    (model_dup : MaterialNode → Option String → Option String)
    (root_material_id : String) (material_node : MaterialNode) (new_base_id : Option String) :
    duplicateMaterialByRootId model_dupByBaseFile root_material_id new_base_id
      = (model_dupByBaseFile root_material_id new_base_id).getD "ERROR"
    ∧ duplicateMaterial model_dup material_node new_base_id
      = (model_dup material_node new_base_id).getD "ERROR" := by
  constructor
  · rcases hf : model_dupByBaseFile root_material_id new_base_id with _ | r <;>
      simp [duplicateMaterialByRootId, hf]
  · rcases hg : model_dup material_node new_base_id with _ | r <;>
      simp [duplicateMaterial, hg]

/-- Claim C8: removing an id that is not in the favorites set leaves the
whole state unchanged — same favorites, same persisted preference string,
no materialsUpdated emission and no settings save. -/
theorem C8_remove_absent_favorite_noop (s : MMState) (root_material_id : String)
    (h : root_material_id ∉ s.favorites) :
    removeFavorite s root_material_id = s := by
  simp [removeFavorite, h]

theorem C8_witness :
    removeFavorite (initManager "m1;m2") "absent" = initManager "m1;m2" :=
  C8_remove_absent_favorite_noop _ _ (by decide)

/-- Claim C9: after addFavorite the set contains the id, the persisted value
is the semicolon-join of the in-memory set, a settings save was triggered,
and after a subsequent removeFavorite the set no longer contains the id and
the persisted value is the join of the resulting id-free set. -/
theorem C9_favorites_round_trip (s : MMState) (root_material_id : String) :
    root_material_id ∈ getFavorites (addFavorite s root_material_id)
    ∧ (addFavorite s root_material_id).persisted
        = String.intercalate ";" (addFavorite s root_material_id).favorites
    ∧ (addFavorite s root_material_id).saves = s.saves + 1
    ∧ root_material_id ∉ getFavorites (removeFavorite (addFavorite s root_material_id) root_material_id)
    ∧ (removeFavorite (addFavorite s root_material_id) root_material_id).persisted
        = String.intercalate ";"
            (removeFavorite (addFavorite s root_material_id) root_material_id).favorites
    ∧ root_material_id ∉ (removeFavorite (addFavorite s root_material_id) root_material_id).favorites := by
  have hmem : root_material_id ∈ (addFavorite s root_material_id).favorites := by
    by_cases h : root_material_id ∈ s.favorites <;> simp [addFavorite, h]
  refine ⟨hmem, rfl, rfl, ?_, ?_, ?_⟩
  · simp [getFavorites, removeFavorite, hmem, List.mem_filter]
  · simp [removeFavorite, hmem]
  · simp [removeFavorite, hmem, List.mem_filter]

/-- The accumulation loop puts read-only names (other than the material id)
in reverse list order in front of the accumulator and editable ones behind
it in list order. -/
theorem fallbackFold_eq (material_id : String) (groups : List MaterialGroup) :
    ∀ acc : List String,
      fallbackFold material_id acc groups
        = (roNames material_id groups).reverse ++ acc ++ edNames material_id groups := by
  induction groups with
  | nil => intro acc; simp [fallbackFold, roNames, edNames]
  | cons g rest ih =>
    intro acc
    cases hb : g.name != material_id with
    | false =>
      simp only [fallbackFold, hb, Bool.false_eq_true, if_false]
      rw [ih acc]
      simp [roNames, edNames, List.filter_cons, hb]
    | true =>
      cases hro : g.is_read_only with
      | false =>
        simp only [fallbackFold, hb, hro, Bool.false_eq_true, if_true, if_false]
        rw [ih (acc ++ [g.name])]
        simp [roNames, edNames, List.filter_cons, hb, hro]
      | true =>
        simp only [fallbackFold, hb, hro, if_true]
        rw [ih (g.name :: acc)]
        simp [roNames, edNames, List.filter_cons, hb, hro, List.append_assoc]

/-- Claim C2 (amended): for a material whose GUID maps to a group list, the
result lists the names of all groups other than the material id with every
read-only group before every editable group, the read-only bucket in
REVERSE registration order (each read-only name is inserted at the front),
the editable bucket in registration order, and the fallback-by-type id
appended when one exists. -/
theorem C2_amended_fallback_order (s : MMState) (material : MaterialContainer)
    (groups : List MaterialGroup)
    (h : getMaterialGroupListByGUID s material.guid = some groups) :
    getFallBackMaterialIdsByMaterial s material
      = Except.ok ((roNames material.id groups).reverse ++ edNames material.id groups
          ++ (getFallbackMaterialIdByMaterialType s material.material_type).toList) := by
  unfold getFallBackMaterialIdsByMaterial
  rw [h]
  rcases hf : getFallbackMaterialIdByMaterialType s material.material_type with _ | fb <;>
    simp [fallbackFold_eq, Option.toList]

/-- State for the claim C2 ordering counterexample: one GUID with read-only
groups A1 then A2 (registered in that order) and editable group B. -/
def c2State : MMState :=
  { fallback_materials_map := []
    material_group_map := []
    diameter_material_map := []
    guid_material_groups_map :=
      [("guid-1",
        [MaterialGroup.mk "A1" true, MaterialGroup.mk "A2" true, MaterialGroup.mk "B" false])]
    favorites := []
    persisted := ""
    saves := 0
    signals := 0
    deadline := none }

def c2Material : MaterialContainer := MaterialContainer.mk "mat-x" "guid-1" "PLA"

/-- Claim C2 counterexample: for read-only groups registered A1 before A2
the code yields A2 before A1, while the claimed ordering (registration order
inside the read-only bucket) yields A1 before A2. -/
theorem C2_counterexample :
    getFallBackMaterialIdsByMaterial c2State c2Material = Except.ok ["A2", "A1", "B"]
    ∧ claimedFallBackIds c2State c2Material = some ["A1", "A2", "B"]
    ∧ (["A2", "A1", "B"] : List String) ≠ ["A1", "A2", "B"] := by
  refine ⟨rfl, rfl, by decide⟩

def c2bMaterial : MaterialContainer := MaterialContainer.mk "other" "guid-1" "PLA"

theorem C2_witness :
    getFallBackMaterialIdsByMaterial c2State c2bMaterial
      = Except.ok ((roNames c2bMaterial.id
            [MaterialGroup.mk "A1" true, MaterialGroup.mk "A2" true,
              MaterialGroup.mk "B" false]).reverse
          ++ edNames c2bMaterial.id
            [MaterialGroup.mk "A1" true, MaterialGroup.mk "A2" true,
              MaterialGroup.mk "B" false]
          ++ (getFallbackMaterialIdByMaterialType c2State c2bMaterial.material_type).toList) :=
  C2_amended_fallback_order c2State c2bMaterial _ rfl

/-- Claim C3 (amended): the map-backed queries (getMaterialGroup,
getRootMaterialIDWithoutDiameter, getMaterialGroupListByGUID,
getFallbackMaterialIdByMaterialType) fail by returning none or the empty
string; getFallBackMaterialIdsByMaterial instead raises a TypeError exactly
when the GUID of the material has no entry in the GUID map, and only
returns a list when the GUID is mapped. -/
theorem C3_amended_query_failures :
    (∀ (s : MMState) (root_material_id : String),
        assocGet s.material_group_map root_material_id = none →
        getMaterialGroup s root_material_id = none)
    ∧ (∀ (s : MMState) (root_material_id : String),
        assocGet s.diameter_material_map root_material_id = none →
        getRootMaterialIDWithoutDiameter s root_material_id = "")
    ∧ (∀ (s : MMState) (guid : String),
        assocGet s.guid_material_groups_map guid = none →
        getMaterialGroupListByGUID s guid = none)
    ∧ (∀ (s : MMState) (material_type : String),
        assocGet s.fallback_materials_map material_type = none →
        getFallbackMaterialIdByMaterialType s material_type = none)
    ∧ (∀ (s : MMState) (material : MaterialContainer),
        getMaterialGroupListByGUID s material.guid = none →
        getFallBackMaterialIdsByMaterial s material = Except.error PyError.typeError)
    ∧ (∀ (s : MMState) (material : MaterialContainer) (ids : List String),
        getFallBackMaterialIdsByMaterial s material = Except.ok ids →
        getMaterialGroupListByGUID s material.guid ≠ none) := by
  refine ⟨?_, ?_, ?_, ?_, ?_, ?_⟩
  · intro s r h; simpa [getMaterialGroup] using h
  · intro s r h; simp [getRootMaterialIDWithoutDiameter, h]
  · intro s g h; simpa [getMaterialGroupListByGUID] using h
  · intro s ty h; simp [getFallbackMaterialIdByMaterialType, h]
  · intro s m h; simp [getFallBackMaterialIdsByMaterial, h]
  · intro s m ids h hn
    simp [getFallBackMaterialIdsByMaterial, hn] at h

/-- A manager state with all four maps empty. -/
def emptyMM : MMState :=
  { fallback_materials_map := []
    material_group_map := []
    diameter_material_map := []
    guid_material_groups_map := []
    favorites := []
    persisted := ""
    saves := 0
    signals := 0
    deadline := none }

/-- Claim C3 counterexample: for a material whose GUID has no entry in the
GUID map, getFallBackMaterialIdsByMaterial raises a TypeError (the for-loop
iterates the none result of dict.get) instead of returning a list. -/
theorem C3_counterexample :
    getFallBackMaterialIdsByMaterial emptyMM (MaterialContainer.mk "m1" "guid-x" "PLA")
      = Except.error PyError.typeError := rfl

theorem C3_witness :
    getMaterialGroup emptyMM "r1" = none
    ∧ getRootMaterialIDWithoutDiameter emptyMM "r1" = ""
    ∧ getMaterialGroupListByGUID emptyMM "g1" = none
    ∧ getFallbackMaterialIdByMaterialType emptyMM "PLA" = none
    ∧ getFallBackMaterialIdsByMaterial emptyMM (MaterialContainer.mk "m2" "g2" "ABS")
        = Except.error PyError.typeError :=
  ⟨C3_amended_query_failures.1 emptyMM "r1" rfl,
   C3_amended_query_failures.2.1 emptyMM "r1" rfl,
   C3_amended_query_failures.2.2.1 emptyMM "g1" rfl,
   C3_amended_query_failures.2.2.2.1 emptyMM "PLA" rfl,
   C3_amended_query_failures.2.2.2.2.1 emptyMM (MaterialContainer.mk "m2" "g2" "ABS") rfl⟩

/-- Claim C4: the two error policies.  getMaterialNode logs one warning and
returns none on a miss at each of its three lookup levels, while
getAvailableMaterials propagates a KeyError to the caller when the machine
definition id or the nozzle name is absent from the container tree. -/
theorem C4_two_error_policies :
    (∀ (tree : ContainerTree) (machine_definition_id : String)
        (nozzle_name buildplate_name : Option String) (diameter : ℚ)
        (root_material_id : String),
        assocGet tree.machines machine_definition_id = none →
        getMaterialNode tree machine_definition_id nozzle_name buildplate_name diameter
            root_material_id
          = (none, [LogMsg.machineNotFound machine_definition_id]))
    ∧ (∀ (tree : ContainerTree) (machine_definition_id : String)
        (machine_node : MachineNode) (nozzle_name buildplate_name : Option String)
        (diameter : ℚ) (root_material_id : String),
        assocGet tree.machines machine_definition_id = some machine_node →
        assocGet machine_node.variants nozzle_name = none →
        getMaterialNode tree machine_definition_id nozzle_name buildplate_name diameter
            root_material_id
          = (none, [LogMsg.variantNotFound nozzle_name machine_definition_id]))
    ∧ (∀ (tree : ContainerTree) (machine_definition_id : String)
        (machine_node : MachineNode) (variant_node : VariantNode)
        (nozzle_name buildplate_name : Option String) (diameter : ℚ)
        (root_material_id : String),
        assocGet tree.machines machine_definition_id = some machine_node →
        assocGet machine_node.variants nozzle_name = some variant_node →
        assocGet variant_node.materials root_material_id = none →
        getMaterialNode tree machine_definition_id nozzle_name buildplate_name diameter
            root_material_id
          = (none, [LogMsg.materialNotFound root_material_id machine_definition_id nozzle_name]))
    ∧ (∀ (tree : ContainerTree) (definition_id : String) (nozzle_name : Option String),
        assocGet tree.machines definition_id = none →
        getAvailableMaterials tree definition_id nozzle_name
          = Except.error (PyError.keyError definition_id))
    ∧ (∀ (tree : ContainerTree) (definition_id : String) (machine_node : MachineNode)
        (nozzle_name : Option String),
        assocGet tree.machines definition_id = some machine_node →
        assocGet machine_node.variants nozzle_name = none →
        getAvailableMaterials tree definition_id nozzle_name
          = Except.error (PyError.keyErrorVariant nozzle_name)) := by
  refine ⟨?_, ?_, ?_, ?_, ?_⟩
  · intro tree mid nz bp d rid h; simp [getMaterialNode, h]
  · intro tree mid mn nz bp d rid h1 h2; simp [getMaterialNode, h1, h2]
  · intro tree mid mn vn nz bp d rid h1 h2 h3; simp [getMaterialNode, h1, h2, h3]
  · intro tree did nz h; simp [getAvailableMaterials, h]
  · intro tree did mn nz h1 h2; simp [getAvailableMaterials, h1, h2]

def mat1 : MaterialNode := MaterialNode.mk "mat1"

def variantV : VariantNode :=
  { materials := [("root1", mat1)], preferredMaterial := fun _ => mat1 }

def machineM : MachineNode := { variants := [(some "V", variantV)] }

def treeT : ContainerTree := { machines := [("M", machineM)] }

theorem C4_witness :
    getMaterialNode treeT "X" (some "V") none 1 "root1"
        = (none, [LogMsg.machineNotFound "X"])
    ∧ getMaterialNode treeT "M" (some "W") none 1 "root1"
        = (none, [LogMsg.variantNotFound (some "W") "M"])
    ∧ getMaterialNode treeT "M" (some "V") none 1 "root2"
        = (none, [LogMsg.materialNotFound "root2" "M" (some "V")])
    ∧ getAvailableMaterials treeT "X" (some "V") = Except.error (PyError.keyError "X")
    ∧ getAvailableMaterials treeT "M" (some "W")
        = Except.error (PyError.keyErrorVariant (some "W")) :=
  ⟨C4_two_error_policies.1 treeT "X" (some "V") none 1 "root1" rfl,
   C4_two_error_policies.2.1 treeT "M" machineM (some "W") none 1 "root1" rfl rfl,
   C4_two_error_policies.2.2.1 treeT "M" machineM variantV (some "V") none 1 "root2" rfl rfl rfl,
   C4_two_error_policies.2.2.2.1 treeT "X" (some "V") rfl,
   C4_two_error_policies.2.2.2.2 treeT "M" machineM (some "W") rfl rfl⟩

def c5Node : MaterialNode := MaterialNode.mk "generic_pla_node"

def c5Variant : VariantNode :=
  { materials := [("generic_pla", c5Node)], preferredMaterial := fun _ => c5Node }

def c5Machine : MachineNode := { variants := [(some "AA 0.4", c5Variant)] }

def c5Tree : ContainerTree := { machines := [("machineX", c5Machine)] }

def c5Stack : GlobalStackData :=
  { definition_id := "machineX", has_materials_entry := none, extruders := [] }

/-- Claim C5: getDefaultMaterial is specified to always return a
MaterialNode, but on the has-no-materials branch the body returns
next(iter(materials)) — the first KEY of the materials mapping, a
root-material-id string, not a node — and on the absent-nozzle branch it
binds the first KEY of the variants mapping and then fails with an
AttributeError instead of using a variant node. -/
theorem C5_default_material_returns_key :
    getDefaultMaterial c5Tree c5Stack "0" (some "AA 0.4") none
      = DefaultMaterialResult.materialId "generic_pla"
    ∧ getDefaultMaterial c5Tree c5Stack "0" (some "BB 0.8") none
      = DefaultMaterialResult.attributeError :=
  ⟨rfl, rfl⟩

/-- Embedding of _onContainerChanged: a container whose declared type is
anything but material is ignored with no side effect; a material container
(re)starts the 300 ms single-shot debounce timer, replacing any armed
deadline. -/
def onContainerChanged (container_type : Option String) (now : Nat) (s : MMState) : MMState :=
  if container_type ≠ some "material" then s
  else { s with deadline := some (now + 300) }

/-- The event loop delivering the single-shot timeout: if the armed deadline
has passed, materialsUpdated is emitted once and the timer disarms. -/
def fireIfDue (now : Nat) (s : MMState) : MMState :=
  match s.deadline with
  | some d => if d ≤ now then { s with signals := s.signals + 1, deadline := none } else s
  | none => s

/-- One container-change notification at a timestamp: any due timeout is
delivered first, then the notification is handled. -/
def containerEventStep (s : MMState) (event : Option String × Nat) : MMState :=
  onContainerChanged event.1 event.2 (fireIfDue event.2 s)

/-- A chronological sequence of container-change notifications. -/
def runContainerEvents (s : MMState) (events : List (Option String × Nat)) : MMState :=
  events.foldl containerEventStep s

/-- Last element of a list with a default for the empty list. -/
def lastD (d : Nat) : List Nat → Nat
  | [] => d
  | t :: ts => lastD t ts

/-- While the armed deadline is still ahead of every event in a burst of
material notifications with gaps under 300 ms, no timeout fires and each
notification only moves the deadline. -/
theorem runBurst (ts : List Nat) :
    ∀ (s : MMState) (t0 : Nat),
      s.deadline = some (t0 + 300) →
      List.Chain (fun a b => b < a + 300) t0 ts →
      runContainerEvents s (ts.map (fun t => ((some "material" : Option String), t)))
        = { s with deadline := some (lastD t0 ts + 300) } := by
  induction ts with
  | nil =>
    intro s t0 h _
    simp only [List.map_nil, runContainerEvents, List.foldl_nil, lastD]
    rw [← h]
  | cons t1 rest ih =>
    intro s t0 h hchain
    rw [List.chain_cons] at hchain
    obtain ⟨hlt, hrest⟩ := hchain
    have step1 : containerEventStep s ((some "material" : Option String), t1)
        = { s with deadline := some (t1 + 300) } := by
      have hnot : ¬ (t0 + 300 ≤ t1) := by omega
      simp [containerEventStep, fireIfDue, h, hnot, onContainerChanged]
    simp only [List.map_cons, runContainerEvents, List.foldl_cons]
    rw [show containerEventStep s ((fun t => ((some "material" : Option String), t)) t1)
        = { s with deadline := some (t1 + 300) } from step1]
    have := ih { s with deadline := some (t1 + 300) } t1 rfl hrest
    simp only [runContainerEvents] at this
    rw [this]
    rfl

/-- Claim C6: a notification for a container of a non-material type is
ignored with no side effect on the timer, the maps or the favorites set; a
material-type notification (re)starts the single-shot 300 ms timer; and a
burst of N at least 1 material notifications whose consecutive gaps are
under 300 ms, started with the timer disarmed, produces exactly one
materialsUpdated signal once the window has elapsed. -/
theorem C6_debounce_coalescing :
    (∀ (s : MMState) (container_type : Option String) (now : Nat),
        container_type ≠ some "material" → onContainerChanged container_type now s = s)
    ∧ (∀ (s : MMState) (now : Nat),
        onContainerChanged (some "material") now s = { s with deadline := some (now + 300) })
    ∧ (∀ (s : MMState) (t0 : Nat) (ts : List Nat) (endTime : Nat),
        s.deadline = none →
        List.Chain (fun a b => b < a + 300) t0 ts →
        lastD t0 ts + 300 ≤ endTime →
        (fireIfDue endTime (runContainerEvents s
            ((t0 :: ts).map (fun t => ((some "material" : Option String), t))))).signals
          = s.signals + 1) := by
  refine ⟨?_, ?_, ?_⟩
  · intro s ty now h
    simp [onContainerChanged, h]
  · intro s now
    simp [onContainerChanged]
  · intro s t0 ts endTime hnone hchain hend
    have step0 : containerEventStep s ((some "material" : Option String), t0)
        = { s with deadline := some (t0 + 300) } := by
      simp [containerEventStep, fireIfDue, hnone, onContainerChanged]
    simp only [List.map_cons, runContainerEvents, List.foldl_cons]
    rw [show containerEventStep s ((fun t => ((some "material" : Option String), t)) t0)
        = { s with deadline := some (t0 + 300) } from step0]
    have hrun := runBurst ts { s with deadline := some (t0 + 300) } t0 rfl hchain
    simp only [runContainerEvents] at hrun
    rw [hrun]
    simp [fireIfDue, hend]

/-- A manager state with the timer disarmed, for the claim C6 witness. -/
def c6State : MMState :=
  { fallback_materials_map := []
    material_group_map := []
    diameter_material_map := []
    guid_material_groups_map := []
    favorites := ["m1"]
    persisted := "m1"
    saves := 0
    signals := 0
    deadline := none }

theorem C6_witness :
    onContainerChanged (some "quality") 5 c6State = c6State
    ∧ (fireIfDue 600 (runContainerEvents c6State
        (([0, 100, 200] : List Nat).map
          (fun t => ((some "material" : Option String), t))))).signals
      = c6State.signals + 1 :=
  ⟨C6_debounce_coalescing.1 c6State (some "quality") 5 (by decide),
   C6_debounce_coalescing.2.2 c6State 0 [100, 200] 600 rfl
     (List.Chain.cons (by omega) (List.Chain.cons (by omega) List.Chain.nil))
     (by decide)⟩

/-- Claim C10: constructing the manager with an empty persisted favorites
preference yields a favorites set holding the empty string (splitting the
empty string on the delimiter gives one empty part), getFavorites reports
it, and a later persistence joins it back into the stored string. -/
theorem C10_empty_pref_reports_empty_favorite :
    "" ∈ getFavorites (initManager "")
    ∧ getFavorites (initManager "") = [""]
    ∧ "" ∈ (addFavorite (initManager "") "m1").favorites
    ∧ (addFavorite (initManager "") "m1").persisted = ";m1" := by
  decide
